import Mathlib

/-!
Shallow embedding of the popup-widget lifecycle manager of
`src/apps/editor/src/plugins/popupWidget.ts` and of
`WysiwygEditor.addWidget` from `src/apps/editor/src/wysiwyg/wwEditor.ts`.

The manager (`class PopupWidget`) holds at most one DOM element (`popup`),
inserts it into `document.body`, repositions it from anchor coordinates,
and removes it on blur / on every `update` tick.  DOM elements are
modelled by numeric identifiers; `document.body`'s children inserted by
the manager are a list of identifiers; applied inline CSS is a map from
element identifier to a patch record.  `document.body.removeChild` throws
when the argument is not a child, so the stateful operations return
`Except String`.
-/

/-- Placement hint of a widget; the source type `WidgetStyle` is the
string union `'top' | 'bottom'`. -/
inductive WidgetStyle where
  | top
  | bottom
deriving DecidableEq, Repr

/-- The `Widget` interface of `popupWidget.ts`: an element (`node`),
a placement style and an anchor document position. -/
structure Widget where
  node : Nat
  style : WidgetStyle
  pos : Nat
deriving DecidableEq, Repr

/-- Screen coordinates returned by `view.coordsAtPos`. -/
structure Coords where
  top : Int
  left : Int
  bottom : Int
deriving DecidableEq, Repr

/-- A set of inline CSS properties passed to `css(node, {...})`;
`none` means the property is not mentioned by the call. -/
structure CssPatch where
  position : Option String := none
  left : Option Int := none
  top : Option Int := none
  opacity : Option String := none
deriving DecidableEq, Repr

/-- Applying a CSS patch on top of previously applied properties:
mentioned properties overwrite, unmentioned ones persist. -/
def CssPatch.merge (old new : CssPatch) : CssPatch :=
  { position := match new.position with | some v => some v | none => old.position
    left := match new.left with | some v => some v | none => old.left
    top := match new.top with | some v => some v | none => old.top
    opacity := match new.opacity with | some v => some v | none => old.opacity }

/-- Observable DOM side effects performed by the manager, in order. -/
inductive Event where
  | removeChild (n : Nat)
  | setCss (n : Nat) (p : CssPatch)
  | append (n : Nat)
  | focus
deriving DecidableEq, Repr

/-- State of one `PopupWidget` instance together with the slice of the
DOM it manipulates: `popup` is the private field of the class, `body`
lists the elements the manager attached to `document.body`, `listener`
records whether the blur listener installed by the constructor is still
registered, and `elemCss` is the inline CSS applied so far. -/
structure PopupState where
  popup : Option Nat
  body : List Nat
  listener : Bool
  elemCss : Nat → CssPatch

/-- The environment the editor view provides: `view.coordsAtPos` and the
measured `clientHeight` of an element once attached. -/
structure Env where
  coordsAtPos : Nat → Coords
  clientHeight : Nat → Int

/-- State right after `new PopupWidget(view)`: no popup, nothing
attached, blur listener registered. -/
def initState : PopupState :=
  { popup := none, body := [], listener := true, elemCss := fun _ => {} }

/-- `css(node, patch)`: merge a patch into an element's applied style. -/
def applyCss (s : PopupState) (n : Nat) (p : CssPatch) : PopupState :=
  { s with elemCss := fun m => if m = n then (s.elemCss m).merge p else s.elemCss m }

namespace PopupWidget

/-- `removeWidget`: if a popup is held, `document.body.removeChild` it
(failing if it is not a child) and clear the field; otherwise no-op. -/
def removeWidget (s : PopupState) : Except String (PopupState × List Event) :=
  match s.popup with
  | none => Except.ok (s, [])
  | some n =>
    if n ∈ s.body then
      Except.ok ({ s with popup := none, body := s.body.erase n }, [Event.removeChild n])
    else
      Except.error "NotFoundError"

/-- The body of the `if (widget)` branch of `update(view)`: resolve the
anchor to coordinates, position the element invisibly, attach it to
`document.body`, measure its `clientHeight`, apply the final top offset
and reveal it, record it as the popup, and focus the view (last event). -/
def materialize (w : Widget) (env : Env) (s1 : PopupState) : PopupState × List Event :=
  let c := env.coordsAtPos w.pos
  let height := c.bottom - c.top
  let p1 : CssPatch :=
    { position := some "absolute", left := some c.left, opacity := some "0" }
  let s2 := applyCss s1 w.node p1
  let s3 := { s2 with body := s2.body ++ [w.node] }
  let topFinal :=
    if w.style = WidgetStyle.bottom then c.top + height
    else c.top - env.clientHeight w.node - height
  let p2 : CssPatch := { top := some topFinal, opacity := some "1" }
  let s4 := applyCss s3 w.node p2
  ({ s4 with popup := some w.node },
    [Event.setCss w.node p1, Event.append w.node,
     Event.setCss w.node p2, Event.focus])

/-- `update(view)`: read the requested widget from the plugin state
(passed here as `req`), always call `removeWidget` first, then, when a
widget is requested, materialize it. -/
def update (req : Option Widget) (env : Env) (s : PopupState) :
    Except String (PopupState × List Event) :=
  match removeWidget s with
  | Except.error e => Except.error e
  | Except.ok (s1, ev1) =>
    match req with
    | none => Except.ok (s1, ev1)
    | some w =>
      Except.ok ((materialize w env s1).1, ev1 ++ (materialize w env s1).2)

/-- `destroy()`: remove the blur listener.  The popup field and the
attached elements are left untouched by the source. -/
def destroy (s : PopupState) : Except String PopupState :=
  Except.ok { s with listener := false }

end PopupWidget

/-- The manager's well-formedness: the attached elements are exactly the
held popup (empty when none).  Holds for `initState` and is preserved by
every operation. -/
def ManagerInv (s : PopupState) : Prop :=
  s.body = (match s.popup with | some n => [n] | none => [])

instance (s : PopupState) : Decidable (ManagerInv s) := by
  unfold ManagerInv; infer_instance

/-- Running a sequence of `update` calls, each with its requested widget
and its environment, threading the manager state. -/
def runUpdates : List (Option Widget × Env) → PopupState → Except String PopupState
  | [], s => Except.ok s
  | p :: rest, s =>
    match PopupWidget.update p.1 p.2 s with
    | Except.ok (s1, _) => runUpdates rest s1
    | Except.error e => Except.error e

/-- The most recent request in the sequence that is not `none`. -/
def mostRecentNonNone : List (Option Widget × Env) → Option Widget
  | [] => none
  | p :: rest =>
    match mostRecentNonNone rest with
    | some w => some w
    | none => p.1

/-- A dispatched transaction, reduced to the metadata channel the plugin
reads: `tr.getMeta(key)` returns the value stored under `key`
(`none` models JavaScript `undefined`). -/
structure Transaction where
  meta : String → Option Widget

/-- `tr.getMeta(key)`. -/
def Transaction.getMeta (tr : Transaction) (key : String) : Option Widget :=
  tr.meta key

/-- The plugin state's `init()`: returns `null`. -/
def widgetPluginInit : Option Widget := none

/-- The plugin state's `apply(tr)`: returns `tr.getMeta('widget')`,
ignoring the previous state entirely. -/
def widgetPluginApply (tr : Transaction) (_prev : Option Widget) : Option Widget :=
  tr.getMeta "widget"

/-- The plugin state after a sequence of transactions has been applied,
starting from the initial state. -/
def pluginStateAfter (trs : List Transaction) : Option Widget :=
  trs.foldl (fun st tr => widgetPluginApply tr st) widgetPluginInit

/-- The slice of the editor selection `addWidget` reads: the selection
end, named `to` in the source (`to` is a reserved word in Lean). -/
structure Selection where
  toPos : Nat

/-- The slice of `view.state` that `WysiwygEditor.addWidget` reads. -/
structure EditorState where
  selection : Selection

namespace WysiwygEditor

/-- `WysiwygEditor.addWidget(node, style, pos?)`: dispatches
`state.tr.setMeta('widget', { pos: pos ?? state.selection.to, node, style })`.
Returns the dispatched transaction (a fresh `tr` carries no other meta). -/
def addWidget (state : EditorState) (node : Nat) (style : WidgetStyle)
    (pos : Option Nat) : Transaction :=
  { meta := fun key =>
      if key = "widget" then
        some { node := node, style := style, pos := pos.getD state.selection.toPos }
      else none }

end WysiwygEditor

/-- Characterization of one `update` call from a well-formed state: it
never fails, preserves well-formedness, and afterwards exactly the
requested widget's element (or nothing) is attached and recorded. -/
theorem update_spec (req : Option Widget) (env : Env) (s : PopupState)
    (h : ManagerInv s) :
    ∃ s' tr, PopupWidget.update req env s = Except.ok (s', tr) ∧ ManagerInv s' ∧
      s'.body = (match req with | some w => [w.node] | none => []) ∧
      s'.popup = (match req with | some w => some w.node | none => none) := by
  obtain ⟨popup, body, listener, ecss⟩ := s
  cases popup with
  | none =>
    have hb : body = [] := h
    subst hb
    cases req with
    | none => exact ⟨_, _, rfl, rfl, rfl, rfl⟩
    | some w => exact ⟨_, _, rfl, rfl, rfl, rfl⟩
  | some n =>
    have hb : body = [n] := h
    subst hb
    have hrw : PopupWidget.removeWidget ⟨some n, [n], listener, ecss⟩
        = Except.ok (⟨none, [], listener, ecss⟩, [Event.removeChild n]) := by
      simp [PopupWidget.removeWidget]
    cases req with
    | none =>
      simp only [PopupWidget.update, hrw]
      exact ⟨_, _, rfl, rfl, rfl, rfl⟩
    | some w =>
      simp only [PopupWidget.update, hrw]
      exact ⟨_, _, rfl, rfl, rfl, rfl⟩

/-- The request carried by the last element of an update sequence
(`none` when the sequence is empty). -/
def lastReq : List (Option Widget × Env) → Option (Option Widget)
  | [] => none
  | [p] => some p.1
  | _ :: q :: t => lastReq (q :: t)

/-- On a nonempty sequence `lastReq` always yields a request. -/
theorem lastReq_cons (p : Option Widget × Env) (t : List (Option Widget × Env)) :
    ∃ r, lastReq (p :: t) = some r := by
  induction t generalizing p with
  | nil => exact ⟨p.1, rfl⟩
  | cons q t ih => exact ih q

/-- When the last request of the sequence is a widget, it is also the
most recent request that is not `none`. -/
theorem lastReq_mostRecent (l : List (Option Widget × Env)) (w : Widget)
    (h : lastReq l = some (some w)) : mostRecentNonNone l = some w := by
  induction l with
  | nil => simp [lastReq] at h
  | cons p rest ih =>
    cases rest with
    | nil =>
      simp [lastReq] at h
      simp [mostRecentNonNone, h]
    | cons q t =>
      have hr := ih (by simpa only [lastReq] using h)
      show (match mostRecentNonNone (q :: t) with
        | some w => some w | none => p.1) = some w
      rw [hr]

/-- Characterization of a whole `update` sequence from a well-formed
state: it never fails, and afterwards the attached elements and the held
popup are determined by the last request (unchanged when the sequence is
empty). -/
theorem runUpdates_spec (l : List (Option Widget × Env)) (s : PopupState)
    (h : ManagerInv s) :
    ∃ s', runUpdates l s = Except.ok s' ∧ ManagerInv s' ∧
      s'.body = (match lastReq l with
        | some (some w) => [w.node] | some none => [] | none => s.body) ∧
      s'.popup = (match lastReq l with
        | some (some w) => some w.node | some none => none | none => s.popup) := by
  induction l generalizing s with
  | nil => exact ⟨s, rfl, h, rfl, rfl⟩
  | cons p rest ih =>
    obtain ⟨s1, tr, hu, h1, hb1, hp1⟩ := update_spec p.1 p.2 s h
    obtain ⟨s', hr, h2, hb2, hp2⟩ := ih s1 h1
    refine ⟨s', by simp [runUpdates, hu, hr], h2, ?_, ?_⟩
    · cases rest with
      | nil =>
        cases hq : p.1 with
        | none =>
          simp [lastReq] at hb2 ⊢
          rw [hb2]
          simpa [hq] using hb1
        | some w =>
          simp [lastReq] at hb2 ⊢
          rw [hb2]
          simpa [hq] using hb1
      | cons q t =>
        obtain ⟨r, hq⟩ := lastReq_cons q t
        simp only [lastReq]
        rw [hq] at hb2 ⊢
        cases r <;> simpa using hb2
    · cases rest with
      | nil =>
        cases hq : p.1 with
        | none =>
          simp [lastReq] at hp2 ⊢
          rw [hp2]
          simpa [hq] using hp1
        | some w =>
          simp [lastReq] at hp2 ⊢
          rw [hp2]
          simpa [hq] using hp1
      | cons q t =>
        obtain ⟨r, hq⟩ := lastReq_cons q t
        simp only [lastReq]
        rw [hq] at hp2 ⊢
        cases r <;> simpa using hp2

/-- Concrete environment for evaluation: the anchor resolves to
`top=100, left=50, bottom=120` and the attached element measures
`clientHeight = 30`. -/
def cEnv : Env :=
  { coordsAtPos := fun _ => { top := 100, left := 50, bottom := 120 }
    clientHeight := fun _ => 30 }

/-- Concrete well-formed manager state with widget element `1` shown. -/
def cState : PopupState :=
  { popup := some 1, body := [1], listener := true, elemCss := fun _ => {} }

/-- A transaction carrying no `'widget'` metadata. -/
def emptyTr : Transaction := { meta := fun _ => none }

/-- C2: after any sequence of `update` calls at most one element
inserted by the manager is attached, and an attached element is the one
of the most recent non-`none` request; moreover every `update` call from
a state holding a widget begins by removing that widget, before the new
request is evaluated. -/
theorem update_single_widget_invariant :
    (∀ l : List (Option Widget × Env),
      ∃ s, runUpdates l initState = Except.ok s ∧ s.body.length ≤ 1 ∧
        ∀ n, n ∈ s.body → ∃ w, mostRecentNonNone l = some w ∧ w.node = n) ∧
    (∀ (req : Option Widget) (env : Env) (s : PopupState) (n : Nat),
      ManagerInv s → s.popup = some n →
      ∃ s' tr, PopupWidget.update req env s = Except.ok (s', tr) ∧
        tr.head? = some (Event.removeChild n)) := by
  constructor
  · intro l
    obtain ⟨s, hr, hinv, hb, hp⟩ := runUpdates_spec l initState rfl
    refine ⟨s, hr, ?_, ?_⟩
    · rw [hb]
      cases hq : lastReq l with
      | none => simp [initState]
      | some o => cases o <;> simp
    · intro n hn
      rw [hb] at hn
      cases hq : lastReq l with
      | none =>
        rw [hq] at hn
        simp [initState] at hn
      | some o =>
        cases o with
        | none => rw [hq] at hn; simp at hn
        | some w =>
          rw [hq] at hn
          simp at hn
          exact ⟨w, lastReq_mostRecent l w hq, hn.symm⟩
  · intro req env s n hinv hpop
    have hb : s.body = [n] := by
      unfold ManagerInv at hinv
      rw [hinv, hpop]
    have hrw : PopupWidget.removeWidget s
        = Except.ok ({ s with popup := none, body := [] }, [Event.removeChild n]) := by
      simp [PopupWidget.removeWidget, hpop, hb]
    cases req with
    | none =>
      refine ⟨{ s with popup := none, body := [] }, [Event.removeChild n], ?_, rfl⟩
      simp only [PopupWidget.update, hrw]
    | some w =>
      refine ⟨(PopupWidget.materialize w env { s with popup := none, body := [] }).1,
        [Event.removeChild n]
          ++ (PopupWidget.materialize w env { s with popup := none, body := [] }).2,
        ?_, rfl⟩
      simp only [PopupWidget.update, hrw]

/-- Witness for C2 at concrete inputs: from the state showing element
`1`, an `update` call first removes element `1`. -/
theorem update_single_widget_invariant_witness :
    ∃ s' tr, PopupWidget.update none cEnv cState = Except.ok (s', tr) ∧
      tr.head? = some (Event.removeChild 1) :=
  update_single_widget_invariant.2 none cEnv cState 1 rfl rfl

/-- C3: for a request with the above style (`'top'`), the final applied
top offset is `top - clientHeight - (bottom - top)`. -/
theorem update_placement_above (w : Widget) (env : Env) (s : PopupState)
    (hstyle : w.style = WidgetStyle.top) (h : ManagerInv s) :
    ∃ s' tr, PopupWidget.update (some w) env s = Except.ok (s', tr) ∧
      (s'.elemCss w.node).top =
        some ((env.coordsAtPos w.pos).top - env.clientHeight w.node -
          ((env.coordsAtPos w.pos).bottom - (env.coordsAtPos w.pos).top)) := by
  obtain ⟨popup, body, listener, ecss⟩ := s
  cases popup with
  | none =>
    have hb : body = [] := h
    subst hb
    refine ⟨_, _, rfl, ?_⟩
    simp [PopupWidget.materialize, applyCss, CssPatch.merge, hstyle]
  | some n =>
    have hb : body = [n] := h
    subst hb
    have hrw : PopupWidget.removeWidget ⟨some n, [n], listener, ecss⟩
        = Except.ok (⟨none, [], listener, ecss⟩, [Event.removeChild n]) := by
      simp [PopupWidget.removeWidget]
    refine ⟨(PopupWidget.materialize w env ⟨none, [], listener, ecss⟩).1,
      [Event.removeChild n] ++ (PopupWidget.materialize w env ⟨none, [], listener, ecss⟩).2,
      ?_, ?_⟩
    · simp only [PopupWidget.update, hrw]
    · simp [PopupWidget.materialize, applyCss, CssPatch.merge, hstyle]

/-- Witness for C3: with anchor coordinates `top=100, left=50,
bottom=120` and `clientHeight = 30`, the final applied top offset is
`100 - 30 - 20 = 50`. -/
theorem update_placement_above_witness :
    ∃ s' tr,
      PopupWidget.update (some { node := 1, style := WidgetStyle.top, pos := 3 }) cEnv initState
        = Except.ok (s', tr) ∧ (s'.elemCss 1).top = some 50 := by
  obtain ⟨s', tr, h1, h2⟩ :=
    update_placement_above { node := 1, style := WidgetStyle.top, pos := 3 } cEnv initState rfl rfl
  refine ⟨s', tr, h1, ?_⟩
  rw [h2]
  decide

/-- C4: for a request with the below style (`'bottom'`), the final
applied top offset is `top + (bottom - top)`, that is `bottom`,
independent of the element's rendered height. -/
theorem update_placement_below (w : Widget) (env : Env) (s : PopupState)
    (hstyle : w.style = WidgetStyle.bottom) (h : ManagerInv s) :
    ∃ s' tr, PopupWidget.update (some w) env s = Except.ok (s', tr) ∧
      (s'.elemCss w.node).top =
        some ((env.coordsAtPos w.pos).top +
          ((env.coordsAtPos w.pos).bottom - (env.coordsAtPos w.pos).top)) ∧
      (s'.elemCss w.node).top = some (env.coordsAtPos w.pos).bottom := by
  obtain ⟨popup, body, listener, ecss⟩ := s
  cases popup with
  | none =>
    have hb : body = [] := h
    subst hb
    refine ⟨_, _, rfl, ?_, ?_⟩
    · simp [PopupWidget.materialize, applyCss, CssPatch.merge, hstyle]
    · simp [PopupWidget.materialize, applyCss, CssPatch.merge, hstyle]
  | some n =>
    have hb : body = [n] := h
    subst hb
    have hrw : PopupWidget.removeWidget ⟨some n, [n], listener, ecss⟩
        = Except.ok (⟨none, [], listener, ecss⟩, [Event.removeChild n]) := by
      simp [PopupWidget.removeWidget]
    refine ⟨(PopupWidget.materialize w env ⟨none, [], listener, ecss⟩).1,
      [Event.removeChild n] ++ (PopupWidget.materialize w env ⟨none, [], listener, ecss⟩).2,
      ?_, ?_, ?_⟩
    · simp only [PopupWidget.update, hrw]
    · simp [PopupWidget.materialize, applyCss, CssPatch.merge, hstyle]
    · simp [PopupWidget.materialize, applyCss, CssPatch.merge, hstyle]

/-- Witness for C4: with anchor coordinates `top=100, left=50,
bottom=120` and `clientHeight = 30`, the final applied top offset is
`120`, the anchor's bottom. -/
theorem update_placement_below_witness :
    ∃ s' tr,
      PopupWidget.update (some { node := 1, style := WidgetStyle.bottom, pos := 3 }) cEnv initState
        = Except.ok (s', tr) ∧ (s'.elemCss 1).top = some 120 := by
  obtain ⟨s', tr, h1, _, h3⟩ :=
    update_placement_below { node := 1, style := WidgetStyle.bottom, pos := 3 } cEnv initState rfl rfl
  refine ⟨s', tr, h1, ?_⟩
  rw [h3]
  decide

/-- C5: an `update` with no requested widget from a state showing
element `n` performs exactly the removal of `n` — no placement work —
and afterwards no widget is held and nothing is attached. -/
theorem update_none_clears (s : PopupState) (n : Nat) (env : Env)
    (h : ManagerInv s) (hp : s.popup = some n) :
    ∃ s', PopupWidget.update none env s = Except.ok (s', [Event.removeChild n]) ∧
      s'.popup = none ∧ s'.body = [] := by
  have hb : s.body = [n] := by
    unfold ManagerInv at h
    rw [h, hp]
  have hrw : PopupWidget.removeWidget s
      = Except.ok ({ s with popup := none, body := [] }, [Event.removeChild n]) := by
    simp [PopupWidget.removeWidget, hp, hb]
  exact ⟨{ s with popup := none, body := [] },
    by simp only [PopupWidget.update, hrw], rfl, rfl⟩

/-- Witness for C5 at the concrete state showing element `1`. -/
theorem update_none_clears_witness :
    ∃ s', PopupWidget.update none cEnv cState = Except.ok (s', [Event.removeChild 1]) ∧
      s'.popup = none ∧ s'.body = [] :=
  update_none_clears cState 1 cEnv rfl rfl

/-- C6: `removeWidget` (the blur / focus-loss handler) never fails from
a well-formed state, leaves no widget held, acts as the identity with no
DOM events when no widget is shown, removes the shown element otherwise,
and a second consecutive call is a no-op on the result. -/
theorem removeWidget_idempotent (s : PopupState) (h : ManagerInv s) :
    ∃ s' tr, PopupWidget.removeWidget s = Except.ok (s', tr) ∧
      s'.popup = none ∧
      PopupWidget.removeWidget s' = Except.ok (s', []) ∧
      (s.popup = none → s' = s ∧ tr = []) ∧
      (∀ n, s.popup = some n → s'.body = [] ∧ tr = [Event.removeChild n]) := by
  obtain ⟨popup, body, listener, ecss⟩ := s
  cases popup with
  | none =>
    have hb : body = [] := h
    subst hb
    exact ⟨_, _, rfl, rfl, rfl, fun _ => ⟨rfl, rfl⟩, fun n hn => Option.noConfusion hn⟩
  | some n =>
    have hb : body = [n] := h
    subst hb
    have hrw : PopupWidget.removeWidget ⟨some n, [n], listener, ecss⟩
        = Except.ok (⟨none, [], listener, ecss⟩, [Event.removeChild n]) := by
      simp [PopupWidget.removeWidget]
    refine ⟨⟨none, [], listener, ecss⟩, [Event.removeChild n], hrw, rfl, rfl, ?_, ?_⟩
    · intro hn
      exact Option.noConfusion hn
    · intro m hm
      injection hm with hm
      subst hm
      exact ⟨rfl, rfl⟩

/-- Witness for C6 at the concrete state showing element `1`: the first
call removes it, the second call is a no-op with no events. -/
theorem removeWidget_idempotent_witness :
    ∃ s' tr, PopupWidget.removeWidget cState = Except.ok (s', tr) ∧ s'.popup = none ∧
      PopupWidget.removeWidget s' = Except.ok (s', []) := by
  obtain ⟨s', tr, h1, h2, h3, _, _⟩ := removeWidget_idempotent cState rfl
  exact ⟨s', tr, h1, h2, h3⟩

/-- C7: `destroy()` never fails, in any state, and calling it again on
the result succeeds and changes nothing. -/
theorem destroy_never_fails (s : PopupState) :
    ∃ s', PopupWidget.destroy s = Except.ok s' ∧ PopupWidget.destroy s' = Except.ok s' :=
  ⟨{ s with listener := false }, rfl, rfl⟩

/-- Materialize widget element `1` from the fresh manager, then call
`destroy()`; used to observe what teardown leaves behind. -/
def runUpdateThenDestroy (req : Option Widget) (env : Env) : Except String PopupState :=
  match PopupWidget.update req env initState with
  | Except.ok (s, _) => PopupWidget.destroy s
  | Except.error e => Except.error e

/-- C1 counterexample: after materializing widget element `1` and then
calling `destroy()`, the listener is removed but element `1` is still
attached to `document.body` and still held as the popup — `destroy()`
does not clear the materialized widget. -/
theorem destroy_keeps_widget_counterexample :
    (runUpdateThenDestroy (some { node := 1, style := WidgetStyle.bottom, pos := 3 })
        cEnv).toOption.map (fun s => (s.body, s.popup, s.listener))
      = some ([1], some 1, false) := rfl

/-- C1 amended: `destroy()` removes the focus-loss observation hook but
leaves any materialized widget untouched: the attached elements and the
held popup after `destroy()` are exactly those before it. -/
theorem destroy_removes_hook_only (s : PopupState) :
    PopupWidget.destroy s = Except.ok { s with listener := false } ∧
    ({ s with listener := false } : PopupState).body = s.body ∧
    ({ s with listener := false } : PopupState).popup = s.popup :=
  ⟨rfl, rfl, rfl⟩

/-- C8: when `update` materializes a widget its last DOM event is the
`view.focus()` call; when no widget is requested, no focus event occurs. -/
theorem update_returns_focus (req : Option Widget) (env : Env) (s : PopupState)
    (h : ManagerInv s) :
    ∃ s' tr, PopupWidget.update req env s = Except.ok (s', tr) ∧
      (∀ w, req = some w → tr.getLast? = some Event.focus) ∧
      (req = none → Event.focus ∉ tr) := by
  obtain ⟨popup, body, listener, ecss⟩ := s
  cases popup with
  | none =>
    have hb : body = [] := h
    subst hb
    cases req with
    | none =>
      exact ⟨_, _, rfl, fun w hw => Option.noConfusion hw, fun _ => by simp⟩
    | some w =>
      refine ⟨_, _, rfl, fun v hv => ?_, fun hn => Option.noConfusion hn⟩
      rfl
  | some n =>
    have hb : body = [n] := h
    subst hb
    have hrw : PopupWidget.removeWidget ⟨some n, [n], listener, ecss⟩
        = Except.ok (⟨none, [], listener, ecss⟩, [Event.removeChild n]) := by
      simp [PopupWidget.removeWidget]
    cases req with
    | none =>
      refine ⟨⟨none, [], listener, ecss⟩, [Event.removeChild n], ?_,
        fun w hw => Option.noConfusion hw, fun _ => ?_⟩
      · simp only [PopupWidget.update, hrw]
      · simp
    | some w =>
      refine ⟨(PopupWidget.materialize w env ⟨none, [], listener, ecss⟩).1,
        [Event.removeChild n]
          ++ (PopupWidget.materialize w env ⟨none, [], listener, ecss⟩).2,
        ?_, fun v hv => ?_, fun hn => Option.noConfusion hn⟩
      · simp only [PopupWidget.update, hrw]
      · rfl

/-- Witness for C8: materializing a concrete widget ends with the focus
event. -/
theorem update_returns_focus_witness :
    ∃ s' tr,
      PopupWidget.update (some { node := 1, style := WidgetStyle.top, pos := 3 }) cEnv initState
        = Except.ok (s', tr) ∧ tr.getLast? = some Event.focus := by
  obtain ⟨s', tr, h1, h2, _⟩ :=
    update_returns_focus (some { node := 1, style := WidgetStyle.top, pos := 3 }) cEnv initState rfl
  exact ⟨s', tr, h1, h2 _ rfl⟩

/-- C9: the plugin's requested-widget state is `null` at initialization;
applying any transaction yields exactly that transaction's `'widget'`
metadata, so a transaction carrying no such metadata clears the request
whatever the previous state was, the state after any nonempty
transaction sequence is the last transaction's metadata, and after a
metadata-less transaction the next `update` removes a shown widget. -/
theorem widget_plugin_state_spec (tr : Transaction) (prev : Option Widget)
    (trs : List Transaction) :
    widgetPluginInit = none ∧
    widgetPluginApply tr prev = tr.getMeta "widget" ∧
    (tr.getMeta "widget" = none → widgetPluginApply tr prev = none) ∧
    pluginStateAfter (trs ++ [tr]) = tr.getMeta "widget" ∧
    (tr.getMeta "widget" = none → ∀ (env : Env) (s : PopupState) (n : Nat),
      ManagerInv s → s.popup = some n →
      ∃ s', PopupWidget.update (widgetPluginApply tr prev) env s
        = Except.ok (s', [Event.removeChild n]) ∧ s'.body = []) := by
  refine ⟨rfl, rfl, fun hm => by simp [widgetPluginApply, hm], ?_, ?_⟩
  · simp [pluginStateAfter, widgetPluginApply, List.foldl_append]
  · intro hm env s n h hp
    rw [show widgetPluginApply tr prev = none from by simp [widgetPluginApply, hm]]
    have hb : s.body = [n] := by
      unfold ManagerInv at h
      rw [h, hp]
    have hrw : PopupWidget.removeWidget s
        = Except.ok ({ s with popup := none, body := [] }, [Event.removeChild n]) := by
      simp [PopupWidget.removeWidget, hp, hb]
    exact ⟨{ s with popup := none, body := [] },
      by simp only [PopupWidget.update, hrw], rfl⟩

/-- Witness for C9: a transaction with no `'widget'` metadata yields the
empty request, and the subsequent `update` removes shown element `1`. -/
theorem widget_plugin_state_spec_witness :
    widgetPluginInit = none ∧ pluginStateAfter [emptyTr] = none ∧
    ∃ s', PopupWidget.update (widgetPluginApply emptyTr none) cEnv cState
      = Except.ok (s', [Event.removeChild 1]) ∧ s'.body = [] := by
  obtain ⟨h1, _, _, h4, h5⟩ := widget_plugin_state_spec emptyTr none []
  exact ⟨h1, h4, h5 rfl cEnv cState 1 rfl rfl⟩

/-- C10: the widget request dispatched by `WysiwygEditor.addWidget` has
anchor position `pos` when `pos` is given, and the end of the current
selection when it is omitted. -/
theorem addWidget_anchor (state : EditorState) (node : Nat) (style : WidgetStyle) (p : Nat) :
    (WysiwygEditor.addWidget state node style (some p)).getMeta "widget"
      = some { node := node, style := style, pos := p } ∧
    (WysiwygEditor.addWidget state node style none).getMeta "widget"
      = some { node := node, style := style, pos := state.selection.toPos } := by
  constructor <;> simp [WysiwygEditor.addWidget, Transaction.getMeta]
